import Mathlib

/-!
Shallow embedding of the `libedbo` Rust crate (EDBO registry client).

The crate's pure logic — enum codes and their `Display` rendering, the
`SearchParams` builder, parameter validation, URL construction, the status
check and error routing of `make_request`, and serde's (de)serialization
semantics for the derived enums and record structs — is translated into
executable Lean definitions.  HTTP transport is abstracted as a function
argument, so each operation is modelled as the pure computation it performs
around the transport call.
-/

namespace Libedbo

/-- JSON values, as handled by serde_json.  Numbers are modelled as integers:
the crate only (de)serializes integer codes and strings, never floats. -/
inductive Json where
  | null : Json
  | bool (b : Bool) : Json
  | num (n : Int) : Json
  | str (s : String) : Json
  | arr (xs : List Json) : Json
  | obj (entries : List (String × Json)) : Json

/-- Rust enum `Region` from `src/model/regions.rs`, with its explicit
discriminants. -/
inductive Region where
  | RepublicOfCrimea
  | VinnytsiaOblast
  | VolynOblast
  | DnipropetrovskOblast
  | DonetskOblast
  | ZhytomyrOblast
  | ZakarpattiaOblast
  | ZaporizhzhiaOblast
  | IvanoFrankivskOblast
  | KyivOblast
  | KirovohradOblast
  | LuhanskOblast
  | LvivOblast
  | MykolaivOblast
  | OdesaOblast
  | PoltavaOblast
  | RivneOblast
  | SumyOblast
  | TernopilOblast
  | KharkivOblast
  | KhersonOblast
  | KhmelnytskyiOblast
  | CherkasyOblast
  | ChernivtsiOblast
  | ChernihivOblast
  | KyivCity
  | SevastopolCity
deriving DecidableEq

/-- The discriminant of each `Region` variant (`*self as i32` in Rust;
modelled as `Int` since every value fits in `i32`). -/
def Region.code : Region → Int
  | .RepublicOfCrimea => 1
  | .VinnytsiaOblast => 5
  | .VolynOblast => 7
  | .DnipropetrovskOblast => 12
  | .DonetskOblast => 14
  | .ZhytomyrOblast => 18
  | .ZakarpattiaOblast => 21
  | .ZaporizhzhiaOblast => 23
  | .IvanoFrankivskOblast => 26
  | .KyivOblast => 32
  | .KirovohradOblast => 35
  | .LuhanskOblast => 44
  | .LvivOblast => 46
  | .MykolaivOblast => 48
  | .OdesaOblast => 51
  | .PoltavaOblast => 53
  | .RivneOblast => 56
  | .SumyOblast => 59
  | .TernopilOblast => 61
  | .KharkivOblast => 63
  | .KhersonOblast => 65
  | .KhmelnytskyiOblast => 68
  | .CherkasyOblast => 71
  | .ChernivtsiOblast => 73
  | .ChernihivOblast => 74
  | .KyivCity => 80
  | .SevastopolCity => 85

/-- The Rust identifier of each `Region` variant: this is the string the
derived serde `Serialize` impl emits for the unit variant. -/
def Region.name : Region → String
  | .RepublicOfCrimea => "RepublicOfCrimea"
  | .VinnytsiaOblast => "VinnytsiaOblast"
  | .VolynOblast => "VolynOblast"
  | .DnipropetrovskOblast => "DnipropetrovskOblast"
  | .DonetskOblast => "DonetskOblast"
  | .ZhytomyrOblast => "ZhytomyrOblast"
  | .ZakarpattiaOblast => "ZakarpattiaOblast"
  | .ZaporizhzhiaOblast => "ZaporizhzhiaOblast"
  | .IvanoFrankivskOblast => "IvanoFrankivskOblast"
  | .KyivOblast => "KyivOblast"
  | .KirovohradOblast => "KirovohradOblast"
  | .LuhanskOblast => "LuhanskOblast"
  | .LvivOblast => "LvivOblast"
  | .MykolaivOblast => "MykolaivOblast"
  | .OdesaOblast => "OdesaOblast"
  | .PoltavaOblast => "PoltavaOblast"
  | .RivneOblast => "RivneOblast"
  | .SumyOblast => "SumyOblast"
  | .TernopilOblast => "TernopilOblast"
  | .KharkivOblast => "KharkivOblast"
  | .KhersonOblast => "KhersonOblast"
  | .KhmelnytskyiOblast => "KhmelnytskyiOblast"
  | .CherkasyOblast => "CherkasyOblast"
  | .ChernivtsiOblast => "ChernivtsiOblast"
  | .ChernihivOblast => "ChernihivOblast"
  | .KyivCity => "KyivCity"
  | .SevastopolCity => "SevastopolCity"

/-- The `fmt::Display` impl of `Region`: `write!(f, "{}", *self as i32)`,
i.e. the decimal rendering of the discriminant. -/
def Region.display (r : Region) : String := toString r.code

/-- Rust enum `UniversityCategory` from `src/model/university.rs`.
`VocationalEducationInstitutions` has no explicit discriminant; Rust
assigns it the previous discriminant plus one, i.e. 2. -/
inductive UniversityCategory where
  | HigherEducationInstitutions
  | VocationalEducationInstitutions
  | SpecializedPreHigherEducationInstitutions
  | ScientificInstitutes
  | PostgraduateEducationInstitutions
deriving DecidableEq

/-- Discriminants of `UniversityCategory` (`*self as i32`). -/
def UniversityCategory.code : UniversityCategory → Int
  | .HigherEducationInstitutions => 1
  | .VocationalEducationInstitutions => 2
  | .SpecializedPreHigherEducationInstitutions => 9
  | .ScientificInstitutes => 8
  | .PostgraduateEducationInstitutions => 10

/-- Rust identifiers of the `UniversityCategory` variants, as used by the
derived serde impls. -/
def UniversityCategory.name : UniversityCategory → String
  | .HigherEducationInstitutions => "HigherEducationInstitutions"
  | .VocationalEducationInstitutions => "VocationalEducationInstitutions"
  | .SpecializedPreHigherEducationInstitutions => "SpecializedPreHigherEducationInstitutions"
  | .ScientificInstitutes => "ScientificInstitutes"
  | .PostgraduateEducationInstitutions => "PostgraduateEducationInstitutions"

/-- The `fmt::Display` impl of `UniversityCategory`. -/
def UniversityCategory.display (c : UniversityCategory) : String := toString c.code

/-- Rust enum `InstitutionCategory` from `src/model/institution.rs`. -/
inductive InstitutionCategory where
  | GeneralSecondaryEducationInstitutions
deriving DecidableEq

/-- Discriminant of `InstitutionCategory` (`*self as i32`). -/
def InstitutionCategory.code : InstitutionCategory → Int
  | .GeneralSecondaryEducationInstitutions => 3

/-- Rust identifier of the single `InstitutionCategory` variant. -/
def InstitutionCategory.name : InstitutionCategory → String
  | .GeneralSecondaryEducationInstitutions => "GeneralSecondaryEducationInstitutions"

/-- The `fmt::Display` impl of `InstitutionCategory`. -/
def InstitutionCategory.display (c : InstitutionCategory) : String := toString c.code

/-- Derived serde `Serialize` for the unit-only enum `Region` under
serde_json: a unit variant serializes as the JSON string of its Rust
identifier (`serialize_unit_variant`); the discriminant is not consulted. -/
def Region.toJson (r : Region) : Json := Json.str r.name

/-- Derived serde `Deserialize` for `Region` under serde_json: only a JSON
string is accepted for a unit-only enum (serde_json's `deserialize_enum`
visits strings and maps; any other value is an invalid-type error), and the
string must be one of the variant identifiers. -/
def Region.fromJson : Json → Except String Region
  | .str s =>
    if s = "RepublicOfCrimea" then .ok .RepublicOfCrimea
    else if s = "VinnytsiaOblast" then .ok .VinnytsiaOblast
    else if s = "VolynOblast" then .ok .VolynOblast
    else if s = "DnipropetrovskOblast" then .ok .DnipropetrovskOblast
    else if s = "DonetskOblast" then .ok .DonetskOblast
    else if s = "ZhytomyrOblast" then .ok .ZhytomyrOblast
    else if s = "ZakarpattiaOblast" then .ok .ZakarpattiaOblast
    else if s = "ZaporizhzhiaOblast" then .ok .ZaporizhzhiaOblast
    else if s = "IvanoFrankivskOblast" then .ok .IvanoFrankivskOblast
    else if s = "KyivOblast" then .ok .KyivOblast
    else if s = "KirovohradOblast" then .ok .KirovohradOblast
    else if s = "LuhanskOblast" then .ok .LuhanskOblast
    else if s = "LvivOblast" then .ok .LvivOblast
    else if s = "MykolaivOblast" then .ok .MykolaivOblast
    else if s = "OdesaOblast" then .ok .OdesaOblast
    else if s = "PoltavaOblast" then .ok .PoltavaOblast
    else if s = "RivneOblast" then .ok .RivneOblast
    else if s = "SumyOblast" then .ok .SumyOblast
    else if s = "TernopilOblast" then .ok .TernopilOblast
    else if s = "KharkivOblast" then .ok .KharkivOblast
    else if s = "KhersonOblast" then .ok .KhersonOblast
    else if s = "KhmelnytskyiOblast" then .ok .KhmelnytskyiOblast
    else if s = "CherkasyOblast" then .ok .CherkasyOblast
    else if s = "ChernivtsiOblast" then .ok .ChernivtsiOblast
    else if s = "ChernihivOblast" then .ok .ChernihivOblast
    else if s = "KyivCity" then .ok .KyivCity
    else if s = "SevastopolCity" then .ok .SevastopolCity
    else .error ("unknown variant `" ++ s ++ "`")
  | _ => .error "invalid type: expected string variant of enum Region"

/-- Derived serde `Serialize` for `UniversityCategory`: the variant
identifier as a JSON string. -/
def UniversityCategory.toJson (c : UniversityCategory) : Json := Json.str c.name

/-- Derived serde `Deserialize` for `UniversityCategory` under serde_json. -/
def UniversityCategory.fromJson : Json → Except String UniversityCategory
  | .str s =>
    if s = "HigherEducationInstitutions" then .ok .HigherEducationInstitutions
    else if s = "VocationalEducationInstitutions" then .ok .VocationalEducationInstitutions
    else if s = "SpecializedPreHigherEducationInstitutions" then
      .ok .SpecializedPreHigherEducationInstitutions
    else if s = "ScientificInstitutes" then .ok .ScientificInstitutes
    else if s = "PostgraduateEducationInstitutions" then .ok .PostgraduateEducationInstitutions
    else .error ("unknown variant `" ++ s ++ "`")
  | _ => .error "invalid type: expected string variant of enum UniversityCategory"

/-- Derived serde `Serialize` for `InstitutionCategory`: the variant
identifier as a JSON string. -/
def InstitutionCategory.toJson (c : InstitutionCategory) : Json := Json.str c.name

/-- Derived serde `Deserialize` for `InstitutionCategory` under serde_json. -/
def InstitutionCategory.fromJson : Json → Except String InstitutionCategory
  | .str s =>
    if s = "GeneralSecondaryEducationInstitutions" then
      .ok .GeneralSecondaryEducationInstitutions
    else .error ("unknown variant `" ++ s ++ "`")
  | _ => .error "invalid type: expected string variant of enum InstitutionCategory"

/-- The crate's error enum from `src/error.rs`.  `ApiError` carries the
`u16` HTTP status (modelled as `Nat`; reqwest status codes are in
100..=999, so `as_u16` is the identity on them).  `NetworkError` carries the
display of the wrapped `reqwest::Error`, `ParsingError` the display of the
wrapped `serde_json::Error`. -/
inductive Error where
  | ApiError (code : Nat)
  | NetworkError (cause : String)
  | ParsingError (cause : String)
  | OtherError (msg : String)
deriving DecidableEq

/-- The `Display` impl generated by `#[derive(thiserror::Error)]` from the
`#[error("...")]` attributes in `src/error.rs`. -/
def Error.display : Error → String
  | .ApiError code => "API error: " ++ toString code
  | .NetworkError cause => "Network error: " ++ cause
  | .ParsingError cause => "Parsing error: " ++ cause
  | .OtherError msg => "Error: " ++ msg

/-- `SearchParams` from `src/search.rs`.  The `id` field is `Option<i32>`
in Rust; it is modelled as `Option Int` because the crate performs no
arithmetic on it (only the comparison `id < 1` and decimal display, both of
which agree with `Int` on every `i32` value). -/
structure SearchParams where
  id : Option Int
  region : Option Region
  university_category : Option UniversityCategory
  institution_category : Option InstitutionCategory
deriving DecidableEq

/-- `SearchParams::new()`: every slot starts empty. -/
def SearchParams.new : SearchParams :=
  { id := none, region := none, university_category := none, institution_category := none }

/-- Builder setter `with_id`. -/
def SearchParams.with_id (p : SearchParams) (id : Int) : SearchParams :=
  { p with id := some id }

/-- Builder setter `with_region`. -/
def SearchParams.with_region (p : SearchParams) (region : Region) : SearchParams :=
  { p with region := some region }

/-- Builder setter `with_university_category`. -/
def SearchParams.with_university_category (p : SearchParams)
    (university_category : UniversityCategory) : SearchParams :=
  { p with university_category := some university_category }

/-- Builder setter `with_institution_category`. -/
def SearchParams.with_institution_category (p : SearchParams)
    (institution_category : InstitutionCategory) : SearchParams :=
  { p with institution_category := some institution_category }

/-- `assert_some` from `src/lib.rs`:
`option.ok_or_else(|| Error::OtherError(format!("{} cannot be None", field)))`. -/
def assert_some (option : Option α) (field : String) : Except Error α :=
  match option with
  | some v => .ok v
  | none => .error (Error.OtherError (field ++ " cannot be None"))

/-- `BASE_URL` constant from `src/lib.rs`. -/
def BASE_URL : String := "https://registry.edbo.gov.ua"

/-- `UNIVERSITIES_ENDPOINT` constant. -/
def UNIVERSITIES_ENDPOINT : String := "/api/universities"

/-- `UNIVERSITY_ENDPOINT` constant. -/
def UNIVERSITY_ENDPOINT : String := "/api/university"

/-- `INSTITUTIONS_ENDPOINT` constant. -/
def INSTITUTIONS_ENDPOINT : String := "/api/institutions"

/-- `SCHOOL_ENDPOINT` constant. -/
def SCHOOL_ENDPOINT : String := "/api/school"

/-- An HTTP response as seen by `make_request` after `send()` succeeds: the
status code and the JSON body. -/
structure Response where
  status : Nat
  body : Json

/-- `StatusCode::is_success()` from the http crate: `200 <= code < 300`. -/
def isSuccess (status : Nat) : Bool := 200 ≤ status && status < 300

/-- Display of the `reqwest::Error` produced by `Response::json` when the
body fails to deserialize: reqwest wraps the serde_json error as a
decode-kind `reqwest::Error`; its message names body decoding and the
underlying cause. -/
def reqwestDecodeMsg (cause : String) : String :=
  "error decoding response body: " ++ cause

/-- `make_request` from `src/lib.rs` (the blocking version is identical up
to `async`).  `decode` is the serde_json deserialization of the body into
the target type `T`.  On a success status the body is decoded by
`response.json()`, which returns `Result<T, reqwest::Error>`; a decode
failure therefore reaches `?` as a `reqwest::Error` and is converted by the
derived `From<reqwest::Error> for Error` impl into `Error::NetworkError`.
On a non-success status the body is discarded and
`Error::ApiError(status.as_u16())` is returned. -/
def make_request (decode : Json → Except String α) (resp : Response) : Except Error α :=
  if isSuccess resp.status then
    match decode resp.body with
    | .ok v => .ok v
    | .error cause => .error (Error.NetworkError (reqwestDecodeMsg cause))
  else
    .error (Error.ApiError resp.status)

/-- `search_universities_async` from `src/lib.rs` (the blocking
`search_universities` performs the same validation and builds the same URL).
The HTTP layer is abstracted: `request` stands for `make_request` applied to
the constructed URL, so a result that is independent of `request` was
produced before any HTTP request was attempted. -/
def search_universities_async (request : String → Except Error α)
    (param : SearchParams) : Except Error α := do
  let ut ← assert_some param.university_category "university_category"
  let lc ← assert_some param.region "region"
  request (BASE_URL ++ UNIVERSITIES_ENDPOINT ++ "?ut=" ++ ut.display ++ "&lc=" ++
    lc.display ++ "&exp=json")

/-- `search_university_async` from `src/lib.rs` (the blocking
`search_university` is identical). -/
def search_university_async (request : String → Except Error α)
    (param : SearchParams) : Except Error α := do
  let id ← assert_some param.id "id"
  if id < 1 then
    .error (Error.OtherError "University ID must be positive")
  else
    request (BASE_URL ++ UNIVERSITY_ENDPOINT ++ "?id=" ++ toString id ++ "&exp=json")

/-- `search_institutions_async` from `src/lib.rs` (the blocking
`search_institutions` is identical). -/
def search_institutions_async (request : String → Except Error α)
    (param : SearchParams) : Except Error α := do
  let ut ← assert_some param.institution_category "institution_category"
  let lc ← assert_some param.region "region"
  request (BASE_URL ++ INSTITUTIONS_ENDPOINT ++ "?ut=" ++ ut.display ++ "&lc=" ++
    lc.display ++ "&exp=json")

/-- `search_school_async` from `src/lib.rs` (the blocking `search_school`
is identical). -/
def search_school_async (request : String → Except Error α)
    (param : SearchParams) : Except Error α := do
  let id ← assert_some param.id "id"
  if id < 1 then
    .error (Error.OtherError "School ID must be positive")
  else
    request (BASE_URL ++ SCHOOL_ENDPOINT ++ "?id=" ++ toString id ++ "&exp=json")

/-- A field of one of the crate's record structs: its wire name and whether
it is required (`String` in Rust) or optional (`Option<String>` in Rust).
Every field of `UniversityBrief`, `Institution` and `SpecialityLicense` is
one of these two types. -/
structure FieldSpec where
  name : String
  required : Bool
deriving DecidableEq

/-- First binding of a key in a JSON object's entry list. -/
def findEntry (key : String) : List (String × Json) → Option Json
  | [] => none
  | (k, v) :: rest => if k = key then some v else findEntry key rest

/-- Decoding of a single struct field by the derived serde `Deserialize`
impl: a required (`String`) field must be present with a string value —
a missing required field is a `missing field` error; an `Option<String>`
field decodes to `None` when absent (serde's implicit default for `Option`
fields) or bound to `null`, and to `Some` of the string otherwise.  A value
of any other JSON type is an invalid-type error for both kinds. -/
def decodeField (entries : List (String × Json)) (f : FieldSpec) : Except String (Option String) :=
  match findEntry f.name entries with
  | none =>
    if f.required then .error ("missing field `" ++ f.name ++ "`") else .ok none
  | some (.str s) => .ok (some s)
  | some .null =>
    if f.required then .error ("invalid type: null, expected a string") else .ok none
  | some _ => .error "invalid type: expected a string"

/-- Decoding of a whole struct: each declared field in order, failing on the
first field error, so an error for any field means no record at all is
produced.  Unknown keys in `entries` are never consulted (serde's default
without `deny_unknown_fields` ignores them).  The decoded record is the
association list from field name to decoded slot (`none` = empty optional
slot).  Duplicate-key objects, which serde rejects, are not modelled: no
claim concerns them. -/
def decodeFields (fields : List FieldSpec) (entries : List (String × Json)) :
    Except String (List (String × Option String)) :=
  match fields with
  | [] => .ok []
  | f :: rest =>
    match decodeField entries f with
    | .error e => .error e
    | .ok v =>
      match decodeFields rest entries with
      | .error e => .error e
      | .ok tail => .ok ((f.name, v) :: tail)

/-- serde_json decoding of a struct from a JSON value: the value must be an
object. -/
def decodeRecord (fields : List FieldSpec) : Json → Except String (List (String × Option String))
  | .obj entries => decodeFields fields entries
  | _ => .error "invalid type: expected a JSON object"

/-- The fields of `UniversityBrief` from `src/model/university.rs`, in
declaration order; `university_parent_id` and `close_date` are
`Option<String>`, all others `String`. -/
def universityBriefFields : List FieldSpec :=
  [⟨"university_name", true⟩,
   ⟨"university_id", true⟩,
   ⟨"university_parent_id", false⟩,
   ⟨"university_short_name", true⟩,
   ⟨"university_name_en", true⟩,
   ⟨"is_from_crimea", true⟩,
   ⟨"registration_year", true⟩,
   ⟨"university_type_name", true⟩,
   ⟨"university_financing_type_name", true⟩,
   ⟨"university_governance_type_name", true⟩,
   ⟨"post_index_u", true⟩,
   ⟨"katottgcodeu", true⟩,
   ⟨"katottg_name_u", true⟩,
   ⟨"region_name_u", true⟩,
   ⟨"university_address_u", true⟩,
   ⟨"university_phone", true⟩,
   ⟨"university_email", true⟩,
   ⟨"university_site", true⟩,
   ⟨"university_director_post", true⟩,
   ⟨"university_director_fio", true⟩,
   ⟨"close_date", false⟩,
   ⟨"primitki", true⟩]

/-- The fields of `Institution` from `src/model/institution.rs`, in
declaration order; `parent_institution_id` and `approved_count` are
`Option<String>`, all others `String`. -/
def institutionFields : List FieldSpec :=
  [⟨"institution_name", true⟩,
   ⟨"institution_id", true⟩,
   ⟨"is_checked", true⟩,
   ⟨"short_name", true⟩,
   ⟨"state_name", true⟩,
   ⟨"institution_type_name", true⟩,
   ⟨"university_financing_type_name", true⟩,
   ⟨"koatuu_id", true⟩,
   ⟨"region_name", true⟩,
   ⟨"koatuu_name", true⟩,
   ⟨"address", true⟩,
   ⟨"parent_institution_id", false⟩,
   ⟨"governance_name", true⟩,
   ⟨"phone", true⟩,
   ⟨"fax", true⟩,
   ⟨"email", true⟩,
   ⟨"website", true⟩,
   ⟨"boss", true⟩,
   ⟨"support_name", true⟩,
   ⟨"is_village", true⟩,
   ⟨"is_mountain", true⟩,
   ⟨"is_internat", true⟩,
   ⟨"approved_count", false⟩]

/-- The fields of `SpecialityLicense` from `src/model/university.rs`, in
declaration order; `certificate_expired` is `Option<String>`, all others
`String`. -/
def specialityLicenseFields : List FieldSpec :=
  [⟨"qualification_group_name", true⟩,
   ⟨"speciality_code", true⟩,
   ⟨"speciality_name", true⟩,
   ⟨"specialization_name", true⟩,
   ⟨"all_count", true⟩,
   ⟨"all_term_count", true⟩,
   ⟨"full_time_count", true⟩,
   ⟨"part_time_count", true⟩,
   ⟨"evening_count", true⟩,
   ⟨"certificate", true⟩,
   ⟨"certificate_expired", false⟩,
   ⟨"license_description", true⟩]

/-- A concrete wire object for a record: exactly the required fields, each
bound to a string, and none of the optional fields. -/
def requiredOnlyEntries (fields : List FieldSpec) : List (String × Json) :=
  (fields.filter (fun f => f.required)).map (fun f => (f.name, Json.str ("v:" ++ f.name)))

/-- The record `requiredOnlyEntries fields` should decode to: every required
slot populated, every optional slot empty. -/
def requiredOnlyResult (fields : List FieldSpec) : List (String × Option String) :=
  fields.map (fun f => (f.name, if f.required then some ("v:" ++ f.name) else none))

/-! Helper lemmas about the serde record-decoding model. -/

/-- Inserting a binding for a different key anywhere in an object leaves a
lookup unchanged. -/
theorem findEntry_insert_ne (key k : String) (v : Json) (pre post : List (String × Json))
    (h : k ≠ key) :
    findEntry key (pre ++ (k, v) :: post) = findEntry key (pre ++ post) := by
  induction pre with
  | nil => simp [findEntry, h]
  | cons hd tl ih =>
    obtain ⟨k1, v1⟩ := hd
    simp only [List.cons_append, findEntry]
    split
    · rfl
    · exact ih

/-- Decoding a field only depends on the lookup of its wire name. -/
theorem decodeField_congr (e1 e2 : List (String × Json)) (f : FieldSpec)
    (h : findEntry f.name e1 = findEntry f.name e2) :
    decodeField e1 f = decodeField e2 f := by
  unfold decodeField
  rw [h]

/-- Inserting a binding whose key is not a declared field name anywhere in
an object leaves the decoding of every declared field unchanged. -/
theorem decodeFields_insert_unknown (fields : List FieldSpec) (k : String) (v : Json)
    (pre post : List (String × Json)) (h : ∀ f ∈ fields, f.name ≠ k) :
    decodeFields fields (pre ++ (k, v) :: post) = decodeFields fields (pre ++ post) := by
  induction fields with
  | nil => rfl
  | cons f rest ih =>
    have hf : decodeField (pre ++ (k, v) :: post) f = decodeField (pre ++ post) f :=
      decodeField_congr _ _ _
        (findEntry_insert_ne _ _ _ _ _ (fun hk => h f (List.mem_cons_self f rest) hk.symm))
    unfold decodeFields
    rw [hf, ih (fun g hg => h g (List.mem_cons_of_mem f hg))]

/-- When a whole record decodes, every declared field decoded successfully
and its slot appears in the result under the field's wire name. -/
theorem decodeFields_ok_mem (fields : List FieldSpec) (entries : List (String × Json))
    (r : List (String × Option String)) (hok : decodeFields fields entries = .ok r)
    (f : FieldSpec) (hf : f ∈ fields) :
    ∃ v, decodeField entries f = .ok v ∧ (f.name, v) ∈ r := by
  induction fields generalizing r with
  | nil => cases hf
  | cons g rest ih =>
    unfold decodeFields at hok
    cases hdg : decodeField entries g with
    | error e => rw [hdg] at hok; cases hok
    | ok v =>
      rw [hdg] at hok
      cases hrest : decodeFields rest entries with
      | error e => rw [hrest] at hok; cases hok
      | ok tail =>
        rw [hrest] at hok
        cases hok
        rcases List.mem_cons.mp hf with hfg | hfr
        · subst hfg
          exact ⟨v, hdg, List.mem_cons_self _ _⟩
        · obtain ⟨w, hw, hmem⟩ := ih tail hrest hfr
          exact ⟨w, hw, List.mem_cons_of_mem _ hmem⟩

/-- When any declared field fails to decode, the whole record fails to
decode (no partially populated record is produced). -/
theorem decodeFields_error_of_mem (fields : List FieldSpec) (entries : List (String × Json))
    (f : FieldSpec) (e : String) (hf : f ∈ fields) (he : decodeField entries f = .error e) :
    ∃ d, decodeFields fields entries = .error d := by
  induction fields with
  | nil => cases hf
  | cons g rest ih =>
    unfold decodeFields
    cases hdg : decodeField entries g with
    | error d => exact ⟨d, rfl⟩
    | ok v =>
      rcases List.mem_cons.mp hf with hfg | hfr
      · subst hfg; rw [hdg] at he; cases he
      · obtain ⟨d, hd⟩ := ih hfr
        rw [hd]
        exact ⟨d, rfl⟩

/-- An optional field that is absent or bound to JSON null decodes to the
empty slot without error. -/
theorem decodeField_optional_empty (entries : List (String × Json)) (f : FieldSpec)
    (hreq : f.required = false)
    (h : findEntry f.name entries = none ∨ findEntry f.name entries = some Json.null) :
    decodeField entries f = .ok none := by
  unfold decodeField
  rcases h with h | h <;> rw [h] <;> simp [hreq]

/-- When a whole record decodes and one of its optional fields is absent or
null on the wire, the decoded record carries the empty slot for it. -/
theorem decodeRecord_optional_slot (fields : List FieldSpec) (fname : String)
    (hmemf : FieldSpec.mk fname false ∈ fields) (entries : List (String × Json))
    (r : List (String × Option String))
    (hok : decodeRecord fields (Json.obj entries) = Except.ok r)
    (habs : findEntry fname entries = none ∨ findEntry fname entries = some Json.null) :
    (fname, none) ∈ r := by
  obtain ⟨v, hv, hmem⟩ := decodeFields_ok_mem fields entries r hok ⟨fname, false⟩ hmemf
  have h2 := decodeField_optional_empty entries ⟨fname, false⟩ rfl habs
  rw [h2] at hv
  injection hv with h3
  subst h3
  exact hmem

/-- A required field that is absent on the wire makes the whole record fail
to decode. -/
theorem decodeRecord_missing_required (fields : List FieldSpec) (f : FieldSpec)
    (entries : List (String × Json)) (hf : f ∈ fields) (hreq : f.required = true)
    (habs : findEntry f.name entries = none) :
    ∃ d, decodeRecord fields (Json.obj entries) = Except.error d := by
  have he : decodeField entries f = Except.error ("missing field `" ++ f.name ++ "`") := by
    unfold decodeField
    rw [habs, hreq]
    rfl
  exact decodeFields_error_of_mem fields entries f _ hf he

/-! Claim theorems. -/

/-- C1: the spec says a 2xx response whose body cannot be decoded into the
result type returns the `ParsingError` variant (user-visible as
"Parsing error: {cause}").  On the code it does not: `response.json()`
reports its decode failure as a `reqwest::Error`, which the `?` operator
converts through `From<reqwest::Error>` into `Error::NetworkError`, so at
the failing input (status 200 with a body that is not an object) the call
returns a `NetworkError` — user-visible as "Network error: ..." — and the
`ParsingError` variant is not produced. -/
theorem c1_decode_failure_yields_network_error :
    make_request (decodeRecord universityBriefFields) ⟨200, Json.str "oops"⟩ =
      Except.error (Error.NetworkError (reqwestDecodeMsg "invalid type: expected a JSON object")) ∧
    (∀ m : String,
      make_request (decodeRecord universityBriefFields) ⟨200, Json.str "oops"⟩ ≠
        Except.error (Error.ParsingError m)) ∧
    Error.display (Error.NetworkError (reqwestDecodeMsg "invalid type: expected a JSON object")) =
      "Network error: error decoding response body: invalid type: expected a JSON object" := by
  refine ⟨rfl, ?_, rfl⟩
  intro m h
  injection h with h2
  exact Error.noConfusion h2

/-- C2 counterexample: `Region::KyivCity` JSON-encodes to the string
"KyivCity", not to its integer code 80, and JSON-decoding the integer 80
does not yield the variant — the derived serde impls for the unit-only
enums use the variant name, never the discriminant. -/
theorem c2_integer_code_roundtrip_fails :
    Region.toJson Region.KyivCity ≠ Json.num 80 ∧
    Region.fromJson (Json.num 80) ≠ Except.ok Region.KyivCity :=
  ⟨fun h => Json.noConfusion h, fun h => Except.noConfusion h⟩

/-- C2 (amended): for every variant of the three enums, JSON-encoding yields
the JSON string of the variant's name, and decoding that string yields the
same variant (the round-trip is through the variant name, not the integer
code); decoding any JSON integer fails. -/
theorem c2_roundtrip_via_variant_name :
    (∀ r : Region, Region.toJson r = Json.str r.name ∧
        Region.fromJson (Region.toJson r) = Except.ok r) ∧
    (∀ c : UniversityCategory, UniversityCategory.toJson c = Json.str c.name ∧
        UniversityCategory.fromJson (UniversityCategory.toJson c) = Except.ok c) ∧
    (∀ c : InstitutionCategory, InstitutionCategory.toJson c = Json.str c.name ∧
        InstitutionCategory.fromJson (InstitutionCategory.toJson c) = Except.ok c) ∧
    (∀ n : Int, ∃ e, Region.fromJson (Json.num n) = Except.error e) := by
  refine ⟨?_, ?_, ?_, fun n => ⟨_, rfl⟩⟩ <;> intro x <;> cases x <;> exact ⟨rfl, rfl⟩

/-- C3: the URL rendering (`Display`) of every variant of the three enums is
the unpadded base-10 decimal string of its assigned code and never the
variant name; in particular `Region::KyivCity` renders "80",
`InstitutionCategory::GeneralSecondaryEducationInstitutions` renders "3",
`UniversityCategory::ScientificInstitutes` renders "8", and
`UniversityCategory::VocationalEducationInstitutions` (implicit code 2)
renders "2". -/
theorem c3_display_is_decimal_code :
    Region.display Region.KyivCity = "80" ∧
    InstitutionCategory.display InstitutionCategory.GeneralSecondaryEducationInstitutions = "3" ∧
    UniversityCategory.display UniversityCategory.ScientificInstitutes = "8" ∧
    UniversityCategory.display UniversityCategory.VocationalEducationInstitutions = "2" ∧
    (∀ r : Region, Region.display r = toString r.code ∧ Region.display r ≠ Region.name r) ∧
    (∀ c : UniversityCategory, UniversityCategory.display c = toString c.code ∧
        UniversityCategory.display c ≠ UniversityCategory.name c) ∧
    (∀ c : InstitutionCategory, InstitutionCategory.display c = toString c.code ∧
        InstitutionCategory.display c ≠ InstitutionCategory.name c) := by
  refine ⟨rfl, rfl, rfl, rfl, ?_, ?_, ?_⟩ <;> intro x <;> cases x <;> exact ⟨rfl, by decide⟩

/-- C9: starting from the empty `SearchParams`, each builder setter
populates exactly its own slot and leaves the other three unchanged (shown
for an arbitrary starting value, which subsumes the empty one), and setters
for distinct slots commute. -/
theorem c9_builder_frame :
    SearchParams.new = ⟨none, none, none, none⟩ ∧
    (∀ (p : SearchParams) (i : Int),
        p.with_id i = ⟨some i, p.region, p.university_category, p.institution_category⟩) ∧
    (∀ (p : SearchParams) (r : Region),
        p.with_region r = ⟨p.id, some r, p.university_category, p.institution_category⟩) ∧
    (∀ (p : SearchParams) (c : UniversityCategory),
        p.with_university_category c = ⟨p.id, p.region, some c, p.institution_category⟩) ∧
    (∀ (p : SearchParams) (c : InstitutionCategory),
        p.with_institution_category c = ⟨p.id, p.region, p.university_category, some c⟩) ∧
    (∀ (p : SearchParams) (i : Int) (r : Region),
        (p.with_id i).with_region r = (p.with_region r).with_id i) ∧
    (∀ (p : SearchParams) (i : Int) (c : UniversityCategory),
        (p.with_id i).with_university_category c = (p.with_university_category c).with_id i) ∧
    (∀ (p : SearchParams) (i : Int) (c : InstitutionCategory),
        (p.with_id i).with_institution_category c = (p.with_institution_category c).with_id i) ∧
    (∀ (p : SearchParams) (r : Region) (c : UniversityCategory),
        (p.with_region r).with_university_category c =
          (p.with_university_category c).with_region r) ∧
    (∀ (p : SearchParams) (r : Region) (c : InstitutionCategory),
        (p.with_region r).with_institution_category c =
          (p.with_institution_category c).with_region r) ∧
    (∀ (p : SearchParams) (cu : UniversityCategory) (ci : InstitutionCategory),
        (p.with_university_category cu).with_institution_category ci =
          (p.with_institution_category ci).with_university_category cu) := by
  refine ⟨rfl, ?_, ?_, ?_, ?_, ?_, ?_, ?_, ?_, ?_, ?_⟩ <;> intros <;> rfl

/-- C4: for each list operation, a missing required parameter yields the
`OtherError` whose message is "{field} cannot be None" for the first absent
field in checking order — `university_category` before `region` for the
universities list (the `university_category` message wins even when `region`
is also absent, since the first conjunct places no condition on `region`),
and `institution_category` before `region` for the institutions list.  The
result is the same for every `request` function, so no HTTP request is
attempted. -/
theorem c4_missing_param_error :
    (∀ (α : Type) (request : String → Except Error α) (p : SearchParams),
        p.university_category = none →
        search_universities_async request p =
          Except.error (Error.OtherError "university_category cannot be None")) ∧
    (∀ (α : Type) (request : String → Except Error α) (p : SearchParams)
        (ut : UniversityCategory),
        p.university_category = some ut → p.region = none →
        search_universities_async request p =
          Except.error (Error.OtherError "region cannot be None")) ∧
    (∀ (α : Type) (request : String → Except Error α) (p : SearchParams),
        p.institution_category = none →
        search_institutions_async request p =
          Except.error (Error.OtherError "institution_category cannot be None")) ∧
    (∀ (α : Type) (request : String → Except Error α) (p : SearchParams)
        (c : InstitutionCategory),
        p.institution_category = some c → p.region = none →
        search_institutions_async request p =
          Except.error (Error.OtherError "region cannot be None")) := by
  refine ⟨?_, ?_, ?_, ?_⟩
  · intro α request p h
    unfold search_universities_async
    rw [h]
    rfl
  · intro α request p ut h1 h2
    unfold search_universities_async
    rw [h1, h2]
    rfl
  · intro α request p h
    unfold search_institutions_async
    rw [h]
    rfl
  · intro α request p c h1 h2
    unfold search_institutions_async
    rw [h1, h2]
    rfl

/-- Witness for C4: the empty parameter set makes the universities list name
`university_category` (though `region` is also absent) and the institutions
list name `institution_category`; supplying only the category makes both
name `region`. -/
theorem c4_missing_param_error_witness :
    search_universities_async (fun _ => Except.ok 0) SearchParams.new =
      Except.error (Error.OtherError "university_category cannot be None") ∧
    search_universities_async (fun _ => Except.ok 0)
        (SearchParams.new.with_university_category
          UniversityCategory.HigherEducationInstitutions) =
      Except.error (Error.OtherError "region cannot be None") ∧
    search_institutions_async (fun _ => Except.ok 0) SearchParams.new =
      Except.error (Error.OtherError "institution_category cannot be None") ∧
    search_institutions_async (fun _ => Except.ok 0)
        (SearchParams.new.with_institution_category
          InstitutionCategory.GeneralSecondaryEducationInstitutions) =
      Except.error (Error.OtherError "region cannot be None") :=
  ⟨c4_missing_param_error.1 Nat _ _ rfl,
   c4_missing_param_error.2.1 Nat _ _ UniversityCategory.HigherEducationInstitutions rfl rfl,
   c4_missing_param_error.2.2.1 Nat _ _ rfl,
   c4_missing_param_error.2.2.2 Nat _ _
     InstitutionCategory.GeneralSecondaryEducationInstitutions rfl rfl⟩

/-- C5: for get-university and get-school, an absent `id` yields the
`OtherError` "id cannot be None", and a present `id < 1` yields the
`OtherError` "University ID must be positive" (get-university) or
"School ID must be positive" (get-school); in each case the result is the
same for every `request` function, so no HTTP request is issued. -/
theorem c5_id_validation :
    (∀ (α : Type) (request : String → Except Error α) (p : SearchParams),
        p.id = none →
        search_university_async request p =
          Except.error (Error.OtherError "id cannot be None")) ∧
    (∀ (α : Type) (request : String → Except Error α) (p : SearchParams) (n : Int),
        p.id = some n → n < 1 →
        search_university_async request p =
          Except.error (Error.OtherError "University ID must be positive")) ∧
    (∀ (α : Type) (request : String → Except Error α) (p : SearchParams),
        p.id = none →
        search_school_async request p =
          Except.error (Error.OtherError "id cannot be None")) ∧
    (∀ (α : Type) (request : String → Except Error α) (p : SearchParams) (n : Int),
        p.id = some n → n < 1 →
        search_school_async request p =
          Except.error (Error.OtherError "School ID must be positive")) := by
  refine ⟨?_, ?_, ?_, ?_⟩
  · intro α request p h
    unfold search_university_async
    rw [h]
    rfl
  · intro α request p n h1 h2
    unfold search_university_async
    rw [h1]
    show (if n < 1 then Except.error (Error.OtherError "University ID must be positive")
      else request (BASE_URL ++ UNIVERSITY_ENDPOINT ++ "?id=" ++ toString n ++ "&exp=json")) = _
    rw [if_pos h2]
  · intro α request p h
    unfold search_school_async
    rw [h]
    rfl
  · intro α request p n h1 h2
    unfold search_school_async
    rw [h1]
    show (if n < 1 then Except.error (Error.OtherError "School ID must be positive")
      else request (BASE_URL ++ SCHOOL_ENDPOINT ++ "?id=" ++ toString n ++ "&exp=json")) = _
    rw [if_pos h2]

/-- Witness for C5: id absent, id = 0 and id = -1 on both id-taking
operations. -/
theorem c5_id_validation_witness :
    search_university_async (fun _ => Except.ok 0) SearchParams.new =
      Except.error (Error.OtherError "id cannot be None") ∧
    search_university_async (fun _ => Except.ok 0) (SearchParams.new.with_id 0) =
      Except.error (Error.OtherError "University ID must be positive") ∧
    search_university_async (fun _ => Except.ok 0) (SearchParams.new.with_id (-1)) =
      Except.error (Error.OtherError "University ID must be positive") ∧
    search_school_async (fun _ => Except.ok 0) SearchParams.new =
      Except.error (Error.OtherError "id cannot be None") ∧
    search_school_async (fun _ => Except.ok 0) (SearchParams.new.with_id 0) =
      Except.error (Error.OtherError "School ID must be positive") ∧
    search_school_async (fun _ => Except.ok 0) (SearchParams.new.with_id (-1)) =
      Except.error (Error.OtherError "School ID must be positive") :=
  ⟨c5_id_validation.1 Nat _ _ rfl,
   c5_id_validation.2.1 Nat _ _ 0 rfl (by decide),
   c5_id_validation.2.1 Nat _ _ (-1) rfl (by decide),
   c5_id_validation.2.2.1 Nat _ _ rfl,
   c5_id_validation.2.2.2 Nat _ _ 0 rfl (by decide),
   c5_id_validation.2.2.2 Nat _ _ (-1) rfl (by decide)⟩

/-- C6: for every parameter set passing validation, each operation passes to
the HTTP layer exactly the URL of its fixed template, with `ut` before
`lc`, enumeration values rendered as decimal integers, `id` rendered as a
signed decimal integer, and the trailing `&exp=json`. -/
theorem c6_url_templates :
    (∀ (α : Type) (request : String → Except Error α) (p : SearchParams)
        (ut : UniversityCategory) (lc : Region),
        p.university_category = some ut → p.region = some lc →
        search_universities_async request p =
          request ("https://registry.edbo.gov.ua/api/universities?ut=" ++ toString ut.code ++
            "&lc=" ++ toString lc.code ++ "&exp=json")) ∧
    (∀ (α : Type) (request : String → Except Error α) (p : SearchParams) (i : Int),
        p.id = some i → 1 ≤ i →
        search_university_async request p =
          request ("https://registry.edbo.gov.ua/api/university?id=" ++ toString i ++
            "&exp=json")) ∧
    (∀ (α : Type) (request : String → Except Error α) (p : SearchParams)
        (ut : InstitutionCategory) (lc : Region),
        p.institution_category = some ut → p.region = some lc →
        search_institutions_async request p =
          request ("https://registry.edbo.gov.ua/api/institutions?ut=" ++ toString ut.code ++
            "&lc=" ++ toString lc.code ++ "&exp=json")) ∧
    (∀ (α : Type) (request : String → Except Error α) (p : SearchParams) (i : Int),
        p.id = some i → 1 ≤ i →
        search_school_async request p =
          request ("https://registry.edbo.gov.ua/api/school?id=" ++ toString i ++
            "&exp=json")) := by
  refine ⟨?_, ?_, ?_, ?_⟩
  · intro α request p ut lc h1 h2
    unfold search_universities_async
    rw [h1, h2]
    rfl
  · intro α request p i h1 h2
    unfold search_university_async
    rw [h1]
    show (if i < 1 then Except.error (Error.OtherError "University ID must be positive")
      else request (BASE_URL ++ UNIVERSITY_ENDPOINT ++ "?id=" ++ toString i ++ "&exp=json")) = _
    rw [if_neg (by omega : ¬ i < 1)]
    rfl
  · intro α request p ut lc h1 h2
    unfold search_institutions_async
    rw [h1, h2]
    rfl
  · intro α request p i h1 h2
    unfold search_school_async
    rw [h1]
    show (if i < 1 then Except.error (Error.OtherError "School ID must be positive")
      else request (BASE_URL ++ SCHOOL_ENDPOINT ++ "?id=" ++ toString i ++ "&exp=json")) = _
    rw [if_neg (by omega : ¬ i < 1)]
    rfl

/-- Witness for C6: concrete URLs for all four operations, observed by
passing the identity as the HTTP layer. -/
theorem c6_url_templates_witness :
    search_universities_async (fun s => Except.ok s)
        ((SearchParams.new.with_region Region.KyivCity).with_university_category
          UniversityCategory.HigherEducationInstitutions) =
      Except.ok "https://registry.edbo.gov.ua/api/universities?ut=1&lc=80&exp=json" ∧
    search_university_async (fun s => Except.ok s) (SearchParams.new.with_id 1234) =
      Except.ok "https://registry.edbo.gov.ua/api/university?id=1234&exp=json" ∧
    search_institutions_async (fun s => Except.ok s)
        ((SearchParams.new.with_region Region.LvivOblast).with_institution_category
          InstitutionCategory.GeneralSecondaryEducationInstitutions) =
      Except.ok "https://registry.edbo.gov.ua/api/institutions?ut=3&lc=46&exp=json" ∧
    search_school_async (fun s => Except.ok s) (SearchParams.new.with_id 42) =
      Except.ok "https://registry.edbo.gov.ua/api/school?id=42&exp=json" :=
  ⟨c6_url_templates.1 String _ _ UniversityCategory.HigherEducationInstitutions
     Region.KyivCity rfl rfl,
   c6_url_templates.2.1 String _ _ 1234 rfl (by decide),
   c6_url_templates.2.2.1 String _ _ InstitutionCategory.GeneralSecondaryEducationInstitutions
     Region.LvivOblast rfl rfl,
   c6_url_templates.2.2.2 String _ _ 42 rfl (by decide)⟩

/-- C7: on any response whose status is not 2xx, `make_request` fails with
`ApiError` carrying exactly that status (user-visible as
"API error: {code}"), and only on a 2xx status does it proceed to decode
the body (a successful decode is returned as the success value). -/
theorem c7_status_mapping :
    (∀ (α : Type) (decode : Json → Except String α) (resp : Response),
        ¬ (200 ≤ resp.status ∧ resp.status < 300) →
        make_request decode resp = Except.error (Error.ApiError resp.status)) ∧
    (∀ s : Nat, Error.display (Error.ApiError s) = "API error: " ++ toString s) ∧
    (∀ (α : Type) (decode : Json → Except String α) (resp : Response) (v : α),
        200 ≤ resp.status → resp.status < 300 → decode resp.body = Except.ok v →
        make_request decode resp = Except.ok v) := by
  refine ⟨?_, fun s => rfl, ?_⟩
  · intro α decode resp h
    unfold make_request
    rw [if_neg]
    simp [isSuccess]
    omega
  · intro α decode resp v h1 h2 hv
    unfold make_request
    rw [if_pos, hv]
    simp [isSuccess]
    omega

/-- Witness for C7: status 503 maps to `ApiError 503` (displayed
"API error: 503"), status 301 to `ApiError 301`, and a 200 response with a
decodable body is returned decoded. -/
theorem c7_status_mapping_witness :
    make_request (fun _ => Except.ok 7) ⟨503, Json.null⟩ =
      Except.error (Error.ApiError 503) ∧
    Error.display (Error.ApiError 503) = "API error: 503" ∧
    make_request (fun _ => Except.ok 7) ⟨301, Json.null⟩ =
      Except.error (Error.ApiError 301) ∧
    make_request (fun _ => Except.ok 7) ⟨200, Json.null⟩ = Except.ok 7 :=
  ⟨c7_status_mapping.1 Nat _ ⟨503, Json.null⟩ (by decide),
   c7_status_mapping.2.1 503,
   c7_status_mapping.1 Nat _ ⟨301, Json.null⟩ (by decide),
   c7_status_mapping.2.2 Nat _ ⟨200, Json.null⟩ 7 (by decide) (by decide) rfl⟩

/-- C10: the validation outcome and constructed URL of get-university and
get-school depend only on the `id` slot of `SearchParams`: two parameter
sets with equal `id` produce identical results for every HTTP layer,
whatever their `region`, `university_category` and `institution_category`
slots. -/
theorem c10_id_only_dependence :
    (∀ (α : Type) (request : String → Except Error α) (p q : SearchParams),
        p.id = q.id →
        search_university_async request p = search_university_async request q) ∧
    (∀ (α : Type) (request : String → Except Error α) (p q : SearchParams),
        p.id = q.id →
        search_school_async request p = search_school_async request q) := by
  constructor
  · intro α request p q h
    unfold search_university_async
    rw [h]
  · intro α request p q h
    unfold search_school_async
    rw [h]

/-- Witness for C10: with equal `id` but entirely different other slots, the
two id-taking operations agree. -/
theorem c10_id_only_dependence_witness :
    search_university_async (fun s => Except.ok s)
        ((SearchParams.new.with_id 5).with_region Region.KyivCity) =
      search_university_async (fun s => Except.ok s)
        ((SearchParams.new.with_id 5).with_university_category
          UniversityCategory.ScientificInstitutes) ∧
    search_school_async (fun s => Except.ok s)
        ((SearchParams.new.with_id 5).with_institution_category
          InstitutionCategory.GeneralSecondaryEducationInstitutions) =
      search_school_async (fun s => Except.ok s) (SearchParams.new.with_id 5) :=
  ⟨c10_id_only_dependence.1 String _ _ _ rfl,
   c10_id_only_dependence.2 String _ _ _ rfl⟩

/-- C8: record decoding tolerates unknown extra JSON fields (inserting a
binding for an undeclared key anywhere in the object changes nothing); the
documented optional fields (`university_parent_id` and `close_date` of
`UniversityBrief`, `parent_institution_id` and `approved_count` of
`Institution`, `certificate_expired` of `SpecialityLicense`) decode to an
empty slot without error when absent or null; a missing required field
makes the whole decode fail with an error, so no partially populated record
is ever produced; and an object carrying exactly the required fields
decodes fully, with every optional slot empty. -/
theorem c8_record_decoding :
    (∀ (k : String) (v : Json) (pre post : List (String × Json)),
        (∀ f ∈ universityBriefFields, f.name ≠ k) →
        decodeRecord universityBriefFields (Json.obj (pre ++ (k, v) :: post)) =
          decodeRecord universityBriefFields (Json.obj (pre ++ post))) ∧
    (∀ (k : String) (v : Json) (pre post : List (String × Json)),
        (∀ f ∈ institutionFields, f.name ≠ k) →
        decodeRecord institutionFields (Json.obj (pre ++ (k, v) :: post)) =
          decodeRecord institutionFields (Json.obj (pre ++ post))) ∧
    (∀ (k : String) (v : Json) (pre post : List (String × Json)),
        (∀ f ∈ specialityLicenseFields, f.name ≠ k) →
        decodeRecord specialityLicenseFields (Json.obj (pre ++ (k, v) :: post)) =
          decodeRecord specialityLicenseFields (Json.obj (pre ++ post))) ∧
    (∀ (entries : List (String × Json)) (f : FieldSpec),
        f.required = false →
        (findEntry f.name entries = none ∨ findEntry f.name entries = some Json.null) →
        decodeField entries f = Except.ok none) ∧
    (∀ (entries : List (String × Json)) (r : List (String × Option String)),
        decodeRecord universityBriefFields (Json.obj entries) = Except.ok r →
        (findEntry "university_parent_id" entries = none ∨
          findEntry "university_parent_id" entries = some Json.null) →
        ("university_parent_id", none) ∈ r) ∧
    (∀ (entries : List (String × Json)) (r : List (String × Option String)),
        decodeRecord universityBriefFields (Json.obj entries) = Except.ok r →
        (findEntry "close_date" entries = none ∨
          findEntry "close_date" entries = some Json.null) →
        ("close_date", none) ∈ r) ∧
    (∀ (entries : List (String × Json)) (r : List (String × Option String)),
        decodeRecord institutionFields (Json.obj entries) = Except.ok r →
        (findEntry "parent_institution_id" entries = none ∨
          findEntry "parent_institution_id" entries = some Json.null) →
        ("parent_institution_id", none) ∈ r) ∧
    (∀ (entries : List (String × Json)) (r : List (String × Option String)),
        decodeRecord institutionFields (Json.obj entries) = Except.ok r →
        (findEntry "approved_count" entries = none ∨
          findEntry "approved_count" entries = some Json.null) →
        ("approved_count", none) ∈ r) ∧
    (∀ (entries : List (String × Json)) (r : List (String × Option String)),
        decodeRecord specialityLicenseFields (Json.obj entries) = Except.ok r →
        (findEntry "certificate_expired" entries = none ∨
          findEntry "certificate_expired" entries = some Json.null) →
        ("certificate_expired", none) ∈ r) ∧
    (∀ (entries : List (String × Json)) (f : FieldSpec),
        f ∈ universityBriefFields → f.required = true → findEntry f.name entries = none →
        ∃ d, decodeRecord universityBriefFields (Json.obj entries) = Except.error d) ∧
    (∀ (entries : List (String × Json)) (f : FieldSpec),
        f ∈ institutionFields → f.required = true → findEntry f.name entries = none →
        ∃ d, decodeRecord institutionFields (Json.obj entries) = Except.error d) ∧
    (∀ (entries : List (String × Json)) (f : FieldSpec),
        f ∈ specialityLicenseFields → f.required = true → findEntry f.name entries = none →
        ∃ d, decodeRecord specialityLicenseFields (Json.obj entries) = Except.error d) ∧
    decodeRecord universityBriefFields (Json.obj (requiredOnlyEntries universityBriefFields)) =
      Except.ok (requiredOnlyResult universityBriefFields) ∧
    decodeRecord institutionFields (Json.obj (requiredOnlyEntries institutionFields)) =
      Except.ok (requiredOnlyResult institutionFields) ∧
    decodeRecord specialityLicenseFields
        (Json.obj (requiredOnlyEntries specialityLicenseFields)) =
      Except.ok (requiredOnlyResult specialityLicenseFields) := by
  refine ⟨?_, ?_, ?_, ?_, ?_, ?_, ?_, ?_, ?_, ?_, ?_, ?_, rfl, rfl, rfl⟩
  · exact fun k v pre post h => decodeFields_insert_unknown _ _ _ _ _ h
  · exact fun k v pre post h => decodeFields_insert_unknown _ _ _ _ _ h
  · exact fun k v pre post h => decodeFields_insert_unknown _ _ _ _ _ h
  · exact fun entries f hreq habs => decodeField_optional_empty entries f hreq habs
  · exact fun entries r hok habs =>
      decodeRecord_optional_slot _ _ (by decide) entries r hok habs
  · exact fun entries r hok habs =>
      decodeRecord_optional_slot _ _ (by decide) entries r hok habs
  · exact fun entries r hok habs =>
      decodeRecord_optional_slot _ _ (by decide) entries r hok habs
  · exact fun entries r hok habs =>
      decodeRecord_optional_slot _ _ (by decide) entries r hok habs
  · exact fun entries r hok habs =>
      decodeRecord_optional_slot _ _ (by decide) entries r hok habs
  · exact fun entries f hf hreq habs => decodeRecord_missing_required _ f entries hf hreq habs
  · exact fun entries f hf hreq habs => decodeRecord_missing_required _ f entries hf hreq habs
  · exact fun entries f hf hreq habs => decodeRecord_missing_required _ f entries hf hreq habs

/-- Witness for C8: concrete instances — an unknown key inserted into a
concrete universities-list record changes nothing; a concrete absent and a
concrete null optional field decode to the empty slot; every decoded
concrete record carries the empty optional slots; and the empty object
fails to decode for each record because its first required field is
missing. -/
theorem c8_record_decoding_witness :
    decodeRecord universityBriefFields
        (Json.obj (("registry_extra", Json.num 1) :: requiredOnlyEntries universityBriefFields)) =
      decodeRecord universityBriefFields (Json.obj (requiredOnlyEntries universityBriefFields)) ∧
    decodeRecord institutionFields
        (Json.obj (("registry_extra", Json.num 1) :: requiredOnlyEntries institutionFields)) =
      decodeRecord institutionFields (Json.obj (requiredOnlyEntries institutionFields)) ∧
    decodeRecord specialityLicenseFields
        (Json.obj (("registry_extra", Json.num 1) ::
          requiredOnlyEntries specialityLicenseFields)) =
      decodeRecord specialityLicenseFields
        (Json.obj (requiredOnlyEntries specialityLicenseFields)) ∧
    decodeField [] ⟨"close_date", false⟩ = Except.ok none ∧
    decodeField [("close_date", Json.null)] ⟨"close_date", false⟩ = Except.ok none ∧
    ("university_parent_id", none) ∈ requiredOnlyResult universityBriefFields ∧
    ("close_date", none) ∈ requiredOnlyResult universityBriefFields ∧
    ("parent_institution_id", none) ∈ requiredOnlyResult institutionFields ∧
    ("approved_count", none) ∈ requiredOnlyResult institutionFields ∧
    ("certificate_expired", none) ∈ requiredOnlyResult specialityLicenseFields ∧
    (∃ d, decodeRecord universityBriefFields (Json.obj []) = Except.error d) ∧
    (∃ d, decodeRecord institutionFields (Json.obj []) = Except.error d) ∧
    (∃ d, decodeRecord specialityLicenseFields (Json.obj []) = Except.error d) :=
  ⟨c8_record_decoding.1 "registry_extra" (Json.num 1) [] (requiredOnlyEntries universityBriefFields)
     (by decide),
   c8_record_decoding.2.1 "registry_extra" (Json.num 1) [] (requiredOnlyEntries institutionFields)
     (by decide),
   c8_record_decoding.2.2.1 "registry_extra" (Json.num 1) []
     (requiredOnlyEntries specialityLicenseFields) (by decide),
   c8_record_decoding.2.2.2.1 [] ⟨"close_date", false⟩ rfl (Or.inl rfl),
   c8_record_decoding.2.2.2.1 [("close_date", Json.null)] ⟨"close_date", false⟩ rfl
     (Or.inr rfl),
   c8_record_decoding.2.2.2.2.1 (requiredOnlyEntries universityBriefFields)
     (requiredOnlyResult universityBriefFields) rfl (Or.inl rfl),
   c8_record_decoding.2.2.2.2.2.1 (requiredOnlyEntries universityBriefFields)
     (requiredOnlyResult universityBriefFields) rfl (Or.inl rfl),
   c8_record_decoding.2.2.2.2.2.2.1 (requiredOnlyEntries institutionFields)
     (requiredOnlyResult institutionFields) rfl (Or.inl rfl),
   c8_record_decoding.2.2.2.2.2.2.2.1 (requiredOnlyEntries institutionFields)
     (requiredOnlyResult institutionFields) rfl (Or.inl rfl),
   c8_record_decoding.2.2.2.2.2.2.2.2.1 (requiredOnlyEntries specialityLicenseFields)
     (requiredOnlyResult specialityLicenseFields) rfl (Or.inl rfl),
   c8_record_decoding.2.2.2.2.2.2.2.2.2.1 [] ⟨"university_name", true⟩ (by decide) rfl rfl,
   c8_record_decoding.2.2.2.2.2.2.2.2.2.2.1 [] ⟨"institution_name", true⟩ (by decide) rfl rfl,
   c8_record_decoding.2.2.2.2.2.2.2.2.2.2.2.1 [] ⟨"qualification_group_name", true⟩
     (by decide) rfl rfl⟩

end Libedbo
